import Mathlib

/-!
Shallow embedding of `spimagine/volume_render.py` (class `VolumeRenderer`)
and proofs about its orchestration logic: downsampling-stride computation,
data ingestion, resize/render output shapes, the stack-scale matrix,
render precondition handling and determinism.

The GPU device, the OpenCL kernel and `scipy.linalg.inv` are external
collaborators: the kernel and the matrix inverse enter the model as
function parameters of `render`, device buffers are modelled as the lists
of values last written to them.  Machine floats are modelled as exact
rationals; numpy integer quantities as `Nat`.
-/

namespace VolumeRender

/-- The numpy dtypes that appear in the claims.  `float32` and `uint16`
are the renderer-supported ones; `float64` and `uint8` stand for
arbitrary unsupported input dtypes. -/
inductive NpDtype where
  | float32
  | uint16
  | float64
  | uint8
deriving DecidableEq, Repr

/-- `numpy.dtype.itemsize` in bytes. -/
def NpDtype.itemsize : NpDtype → Nat
  | .float32 => 4
  | .uint16 => 2
  | .float64 => 8
  | .uint8 => 1

/-- A numpy array as far as the orchestration code inspects it:
its shape and its dtype. -/
structure Arr where
  shape : List Nat
  dtype : NpDtype
deriving DecidableEq, Repr

/-- `data.nbytes`: number of elements times the per-element size. -/
def nbytes (a : Arr) : Nat := a.shape.prod * a.dtype.itemsize

/-- `data.astype(t)`: same shape, new dtype. -/
def astype (a : Arr) (t : NpDtype) : Arr := { a with dtype := t }

/-- Linear search (structurally recursive on the fuel, so that the
kernel can evaluate it) for the least `m ≥ n` with `m * m ≥ c`. -/
def ceilSqrtAux (c : Nat) : Nat → Nat → Nat
  | 0, n => n
  | fuel + 1, n => if c ≤ n * n then n else ceilSqrtAux c fuel (n + 1)

/-- Ceiling square root of a natural number: the least `n` with
`n * n ≥ c`. -/
def ceilSqrtNat (c : Nat) : Nat := ceilSqrtAux c (c + 1) 0

/-- Exact value of `int(ceil(sqrt(a / b)))` for naturals `a`, `b` with
`b > 0`.  Since an integer `n` satisfies `n^2 ≥ a / b` iff
`n^2 ≥ ceil(a / b)`, this equals the ceiling square root of
`ceil(a / b) = (a + b - 1) / b`. -/
def ceilSqrtRat (a b : Nat) : Nat :=
  ceilSqrtNat ((a + b - 1) / b)

/-- `VolumeRenderer._get_downsampled_data_slices`, reduced to the single
datum it encodes: the integer stride `Nstep = ceil(sqrt(nbytes/memMax))`,
returned only when it exceeds 1 (`None` means no downsampling).  The
slices themselves are `slice(0, d, Nstep)` per axis. -/
def getDownsampledStride (memMax : Nat) (d : Arr) : Option Nat :=
  if 1 < ceilSqrtRat (nbytes d) memMax
  then some (ceilSqrtRat (nbytes d) memMax)
  else none

/-- Length of `range(0, d, n)`, i.e. the size along one axis after
applying `slice(0, d, n)`: `ceil(d / n)`. -/
def slicedShape (n : Nat) (shape : List Nat) : List Nat :=
  shape.map fun d => (d + n - 1) / n

/-- 4×4 matrices over exact rationals (modelling float64 numpy arrays). -/
abbrev Mat4 := Matrix (Fin 4) (Fin 4) ℚ

/-- Modelled from the spec: `mat4_identity` is imported from
`spimagine.transform_matrices`, which is not among the sources; per
spec §4.4/§6 it is the 4×4 identity matrix. -/
def mat4_identity : Mat4 := 1

/-- Modelled from the spec: `mat4_scale` is imported from
`spimagine.transform_matrices`, which is not among the sources; per
spec §4.4 the stack-scale matrix is the anisotropic (diagonal) scale
with the given per-axis factors, so `mat4_scale x y z` is the standard
4×4 diagonal scale matrix. -/
def mat4_scale (x y z : ℚ) : Mat4 := Matrix.diagonal ![x, y, z, 1]

/-- Row-major flattening of a 4×4 matrix, as written to the 16-float
device buffers (`invM.flatten()`). -/
def mat4_flatten (m : Mat4) : List ℚ :=
  ((List.finRange 4).map fun i => (List.finRange 4).map fun j => m i j).flatten

/-- Python exceptions raised by the modelled code paths. -/
inductive PyErr where
  /-- `NotImplementedError("data type should be either %s not %s")` with
  the required dtype list and the offending dtype. -/
  | notImplemented (required : List NpDtype) (given : NpDtype)
  /-- numpy `ValueError`: truth value of a multi-element array is
  ambiguous (evaluating `not modelView` on a 4×4 array). -/
  | truthValueAmbiguous
  /-- `ValueError` from unpacking `Nx,Ny,Nz = self.dataImg.shape` when the
  shape does not have exactly three entries. -/
  | unpackMismatch
  /-- `ValueError` from `reshape` when the element count does not match. -/
  | reshapeMismatch
deriving DecidableEq, Repr

/-- The mutable attribute state of a `VolumeRenderer` instance after
`__init__` has completed.  Device buffers (`buf`, `invMBuf`, `invPBuf`)
are modelled by the values last written to them; the 3D device image by
its allocation descriptor `dataImg` (shape as passed to `createImage`,
channel dtype) plus `imgData`, the array last uploaded via `writeImage`.
`hostData` is `self._data`.  `dataSlices` keeps only the stride of the
`slice(0, d, Nstep)` objects (`none` both before `set_data` and when no
downsampling is in effect). -/
structure RState where
  isGPU : Bool
  memMax : Nat
  width : Nat
  height : Nat
  buf : List ℚ
  invMBuf : List ℚ
  invPBuf : List ℚ
  dtype : NpDtype
  maxVal : ℚ
  gamma : ℚ
  boxBounds : Fin 6 → ℚ
  stackUnits : Fin 3 → ℚ
  modelView : Mat4
  projection : Mat4
  dataImg : Option Arr
  dataSlices : Option Nat
  hostData : Option Arr
  imgData : Option Arr

/-- `self.dtypes`, fixed at construction from the kind of device found:
`[np.float32, np.uint16]` on a GPU, `[np.float32]` on the CPU fallback. -/
def RState.dtypes (s : RState) : List NpDtype :=
  if s.isGPU then [.float32, .uint16] else [.float32]

/-- A raised exception together with the renderer state at the moment of
the raise (Python exceptions do not roll back prior attribute writes). -/
abbrev Raised := PyErr × RState

/-- `VolumeRenderer.reset_buffer`: reallocate the output device buffer
with `height*width` float32 slots.  A fresh OpenCL buffer has
unspecified contents; it is modelled as zeros, and no theorem below
depends on the contents of a freshly allocated buffer. -/
def reset_buffer (s : RState) : RState :=
  { s with buf := List.replicate (s.height * s.width) 0 }

/-- `VolumeRenderer.resize`: store the new size and reallocate the
output buffer. -/
def resize (s : RState) (size : Nat × Nat) : RState :=
  reset_buffer { s with width := size.1, height := size.2 }

/-- `VolumeRenderer.set_dtype` as callable after construction (the
attribute `self.dtype` always exists then, so the `hasattr` guard is
true and the early return fires exactly when the argument `is` the
stored dtype).  `None` selects `self.dtypes[0]`; an unsupported dtype
raises `NotImplementedError` before any mutation; a successful set is
followed by `reset_buffer`. -/
def set_dtype (s : RState) (dtype : Option NpDtype) : Except Raised RState :=
  if dtype = some s.dtype then .ok s
  else if dtype.getD (s.dtypes.headD .float32) ∈ s.dtypes then
    .ok (reset_buffer { s with dtype := dtype.getD (s.dtypes.headD .float32) })
  else .error (.notImplemented s.dtypes (dtype.getD (s.dtypes.headD .float32)), s)

/-- `VolumeRenderer.set_max_val` (default argument 0). -/
def set_max_val (s : RState) (maxVal : ℚ) : RState := { s with maxVal := maxVal }

/-- `VolumeRenderer.set_gamma` (default argument 1). -/
def set_gamma (s : RState) (gamma : ℚ) : RState := { s with gamma := gamma }

/-- `VolumeRenderer.set_box_boundaries` (default `[-1,1,-1,1,-1,1]`). -/
def set_box_boundaries (s : RState) (boxBounds : Fin 6 → ℚ) : RState :=
  { s with boxBounds := boxBounds }

/-- `VolumeRenderer.set_units` (default `ones(3)`). -/
def set_units (s : RState) (stackUnits : Fin 3 → ℚ) : RState :=
  { s with stackUnits := stackUnits }

/-- `VolumeRenderer.set_projection` (default `mat4_identity()`). -/
def set_projection (s : RState) (projection : Mat4) : RState :=
  { s with projection := projection }

/-- `VolumeRenderer.set_modelView`: stores `1. * modelView` (the float
promotion is the identity over exact rationals). -/
def set_modelView (s : RState) (modelView : Mat4) : RState :=
  { s with modelView := (1 : ℚ) • modelView }

/-- `VolumeRenderer.set_shape`: allocate the 3D device image with the
given shape and the channel type of the current dtype (the GPU and CPU
branches differ only in the channel order passed to `createImage`). -/
def set_shape (s : RState) (dataShape : List Nat) : RState :=
  { s with dataImg := some ⟨dataShape, s.dtype⟩ }

/-- `VolumeRenderer.update_data`: slice by the stored `dataSlices` if
present (a copy, which is invisible under value semantics, as is the
`copyData` flag), convert to the stored dtype if necessary, store as
`self._data` and upload to the device image. -/
def update_data (s : RState) (data : Arr) (copyData : Bool) : RState :=
  let _ := copyData
  let d := match s.dataSlices with
    | some n => ⟨slicedShape n data.shape, data.dtype⟩
    | none => data
  let d := if d.dtype = s.dtype then d else astype d s.dtype
  { s with hostData := some d, imgData := some d }

/-- `VolumeRenderer.set_data`: reject unsupported dtypes when
`autoConvert` is off (before any mutation); adopt a supported input
dtype via `set_dtype`, otherwise convert the array to the stored dtype;
compute the downsampling stride; allocate the device image with the
(possibly downsampled) shape reversed; upload via `update_data`. -/
def set_data (s : RState) (data : Arr) (autoConvert copyData : Bool) :
    Except Raised RState :=
  if autoConvert = false ∧ data.dtype ∉ s.dtypes then
    .error (.notImplemented s.dtypes data.dtype, s)
  else
    match (if data.dtype ∈ s.dtypes then
            (set_dtype s (some data.dtype)).map fun s1 => (s1, data)
          else
            .ok (s, astype data s.dtype) : Except Raised (RState × Arr)) with
    | .error e => .error e
    | .ok (s1, d) =>
      let stride := getDownsampledStride s1.memMax d
      let s2 := { s1 with dataSlices := stride }
      let s3 := match stride with
        | some n => set_shape s2 ((slicedShape n d.shape).reverse)
        | none => set_shape s2 d.shape.reverse
      .ok (update_data s3 d copyData)

/-- `VolumeRenderer._stack_scale_mat`, as a function of the device image
descriptor and the stored stack units: unpack `Nx,Ny,Nz` from the image
shape (`none` models the `ValueError` when the shape is not a triple),
take the largest physical extent and scale each axis relative to it. -/
def stack_scale_mat (img : Arr) (units : Fin 3 → ℚ) : Option Mat4 :=
  match img.shape with
  | [nx, ny, nz] =>
    let dx := units 0
    let dy := units 1
    let dz := units 2
    let maxDim := max (dx * nx) (max (dy * ny) (dz * nz))
    some (mat4_scale (dx * nx / maxDim) (dy * ny / maxDim) (dz * nz / maxDim))
  | _ => none

/-- The result of `readBuffer(...).reshape(w, h)`: a 2D float array. -/
structure Image where
  shape : Nat × Nat
  data : List ℚ
deriving DecidableEq, Repr

/-- numpy `reshape(w, h)` of a flat buffer: succeeds iff the element
count matches, and the resulting shape is `(w, h)`. -/
def reshape (w h : Nat) (l : List ℚ) : Option Image :=
  if l.length = w * h then some ⟨(w, h), l⟩ else none

/-- Everything the external `max_project` kernel can read: the scalar
arguments, the contents of the two matrix buffers, the volume image
allocation and its uploaded contents, and the uint16 flag. -/
structure KernelArgs where
  width : Nat
  height : Nat
  bb0 : ℚ
  bb1 : ℚ
  bb2 : ℚ
  bb3 : ℚ
  bb4 : ℚ
  bb5 : ℚ
  maxVal : ℚ
  gamma : ℚ
  invP : List ℚ
  invM : List ℚ
  dataImg : Arr
  volume : Option Arr
  isUint16 : Bool

/-- Result of a completed `render` call: the post-call state, the
returned image, and whether the kernel was dispatched. -/
structure RenderOut where
  state : RState
  image : Image
  dispatched : Bool

/-- `VolumeRenderer.render`.  `inv4` stands for `scipy.linalg.inv` and
`kernel` for the external `max_project` kernel (value written at each
buffer index), both deterministic functions supplied by the environment.
Faithful quirks of the source: the `boxBounds` parameter is accepted but
never applied; overrides are applied through the setters before the
precondition checks; with data present, a non-`None` `modelView`
argument reaches `if not modelView and ...`, and taking the truth value
of a 4×4 numpy array raises `ValueError`. -/
def render (inv4 : Mat4 → Mat4) (kernel : KernelArgs → Nat → ℚ) (s : RState)
    (data : Option Arr) (stackUnits : Option (Fin 3 → ℚ))
    (maxVal gamma : Option ℚ) (modelView projection : Option Mat4)
    (boxBounds : Option (Fin 6 → ℚ)) : Except Raised RenderOut :=
  match (match data with
          | some d => set_data s d true false
          | none => .ok s : Except Raised RState) with
  | .error e => .error e
  | .ok s =>
    let s := match maxVal with | some v => set_max_val s v | none => s
    let s := match gamma with | some v => set_gamma s v | none => s
    let s := match stackUnits with | some v => set_units s v | none => s
    let s := match modelView with | some m => set_modelView s m | none => s
    let s := match projection with | some p => set_projection s p | none => s
    let _ := boxBounds
    match s.dataImg with
    | none =>
      match reshape s.width s.height s.buf with
      | some img => .ok ⟨s, img, false⟩
      | none => .error (.reshapeMismatch, s)
    | some dimg =>
      match modelView with
      | some _ => .error (.truthValueAmbiguous, s)
      | none =>
        match stack_scale_mat dimg s.stackUnits with
        | none => .error (.unpackMismatch, s)
        | some mScale =>
          let invM := inv4 (s.modelView * mScale)
          let s := { s with invMBuf := mat4_flatten invM }
          let invP := inv4 s.projection
          let s := { s with invPBuf := mat4_flatten invP }
          let args : KernelArgs :=
            { width := s.width, height := s.height,
              bb0 := s.boxBounds 0, bb1 := s.boxBounds 1,
              bb2 := s.boxBounds 2, bb3 := s.boxBounds 3,
              bb4 := s.boxBounds 4, bb5 := s.boxBounds 5,
              maxVal := s.maxVal, gamma := s.gamma,
              invP := s.invPBuf, invM := s.invMBuf,
              dataImg := dimg, volume := s.imgData,
              isUint16 := s.dtype == NpDtype.uint16 }
          let s := { s with buf := (List.range (s.width * s.height)).map (kernel args) }
          match reshape s.width s.height s.buf with
          | some img => .ok ⟨s, img, true⟩
          | none => .error (.reshapeMismatch, s)

/-- `VolumeRenderer.__init__` after a device has been found (`isGPU`
records which kind, `memMax` the device `MAX_MEM_ALLOC_SIZE`): allocate
the two 16-float matrix buffers, `resize` to the requested or default
(200, 200) size, then run the documented default setters in source
order.  The construction-time `set_dtype()` call finds no prior `dtype`
attribute and stores `self.dtypes[0]`, then resets the buffer. -/
def init (isGPU : Bool) (memMax : Nat) (size : Option (Nat × Nat)) : RState :=
  let s : RState :=
    { isGPU := isGPU, memMax := memMax,
      width := 0, height := 0, buf := [],
      invMBuf := List.replicate 16 0, invPBuf := List.replicate 16 0,
      dtype := .float32, maxVal := 0, gamma := 1,
      boxBounds := fun _ => 0, stackUnits := fun _ => 1,
      modelView := 1, projection := 1,
      dataImg := none, dataSlices := none, hostData := none, imgData := none }
  let s := resize s (size.getD (200, 200))
  let s := reset_buffer { s with dtype := s.dtypes.headD .float32 }
  let s := set_gamma s 1
  let s := set_max_val s 0
  let s := set_box_boundaries s ![-1, 1, -1, 1, -1, 1]
  let s := set_units s fun _ => 1
  let s := set_modelView s mat4_identity
  let s := set_projection s mat4_identity
  s

/-- The array that `set_data` ends up uploading for a volume whose dtype
needs no conversion: the volume itself, or its strided slice when the
downsampling stride exceeds 1.  (Abbreviation used to state theorems;
defined from the source-derived functions above.) -/
def uploadOf (memMax : Nat) (data : Arr) : Arr :=
  match getDownsampledStride memMax data with
  | some n => ⟨slicedShape n data.shape, data.dtype⟩
  | none => data

/-- A trivial concrete kernel (writes 0 everywhere), used to instantiate
the external-kernel parameter in concrete evaluations. -/
def k0 : KernelArgs → Nat → ℚ := fun _ _ => 0

/-- A small concrete volume: 2×2×2 float32. -/
def arrW : Arr := ⟨[2, 2, 2], .float32⟩

/-- A concrete GPU renderer, 2×2 output, generous memory limit. -/
def s0W : RState := init true 100000 (some (2, 2))

/-- `s0W` after `set_data(arrW)` (extracted from the `Except`). -/
def sRW : RState := (set_data s0W arrW true false).toOption.getD s0W

/-- Placeholder render result used only as a `getD` default. -/
def dummyOut : RenderOut := ⟨s0W, ⟨(0, 0), []⟩, false⟩

/-- First no-override render of `sRW` (with identity inverse and `k0`). -/
def rD1 : RenderOut :=
  (render id k0 sRW none none none none none none none).toOption.getD dummyOut

/-- Second no-override render, starting from the state `rD1` left. -/
def rD2 : RenderOut :=
  (render id k0 rD1.state none none none none none none none).toOption.getD dummyOut

/-- A concrete CPU renderer used for the atomicity analysis. -/
def s7W : RState := init false 9 (some (2, 2))

/-- `s7W` rendered with a `gamma=2` override and no data. -/
def r7W : RenderOut :=
  (render id k0 s7W none none none (some 2) none none none).toOption.getD dummyOut

/-- A concrete renderer after `resize((3,2))`, rendered once. -/
def r2W : RenderOut :=
  (render id k0 (resize (init true 5 none) (3, 2))
    none none none none none none none).toOption.getD dummyOut

/-- `sRW` after a bare `set_dtype(np.uint16)` call. -/
def sCW : RState := (set_dtype sRW (some .uint16)).toOption.getD sRW

/-- `s7W` rendered once with no overrides. -/
def r7nW : RenderOut :=
  (render id k0 s7W none none none none none none none).toOption.getD dummyOut

/-! ### Arithmetic facts about the downsampling stride -/

lemma ceil_div_le_iff (a b k : Nat) (hb : 0 < b) :
    (a + b - 1) / b ≤ k ↔ a ≤ k * b := by
  rw [Nat.div_le_iff_le_mul_add_pred hb, Nat.mul_comm k b]
  omega

lemma ceilSqrtAux_correct (c : Nat) :
    ∀ (fuel n : Nat), c ≤ (n + fuel) * (n + fuel) →
      c ≤ ceilSqrtAux c fuel n * ceilSqrtAux c fuel n ∧
      (∀ m, n ≤ m → m < ceilSqrtAux c fuel n → ¬ c ≤ m * m) ∧
      n ≤ ceilSqrtAux c fuel n := by
  intro fuel
  induction fuel with
  | zero =>
    intro n hn
    refine ⟨by simpa using hn, ?_, le_rfl⟩
    intro m h1 h2
    simp only [ceilSqrtAux] at h2
    omega
  | succ f ih =>
    intro n hn
    simp only [ceilSqrtAux]
    by_cases h : c ≤ n * n
    · rw [if_pos h]
      exact ⟨h, fun m h1 h2 => by omega, le_rfl⟩
    · rw [if_neg h]
      have hn' : c ≤ (n + 1 + f) * (n + 1 + f) := by
        have : n + 1 + f = n + (f + 1) := by omega
        rw [this]
        exact hn
      obtain ⟨i1, i2, i3⟩ := ih (n + 1) hn'
      refine ⟨i1, ?_, by omega⟩
      intro m h1 h2
      by_cases hm : m = n
      · subst hm
        exact h
      · exact i2 m (by omega) h2

/-- `ceilSqrtNat c` is the least `n` with `n * n ≥ c`. -/
lemma ceilSqrtNat_le_iff (c k : Nat) : ceilSqrtNat c ≤ k ↔ c ≤ k * k := by
  unfold ceilSqrtNat
  have hfuel : c ≤ (0 + (c + 1)) * (0 + (c + 1)) := by
    rw [Nat.zero_add]
    have h1 : c + 1 ≤ (c + 1) * (c + 1) := Nat.le_mul_of_pos_left _ (by omega)
    omega
  obtain ⟨h1, h2, _⟩ := ceilSqrtAux_correct c (c + 1) 0 hfuel
  constructor
  · intro hk
    exact le_trans h1 (Nat.mul_le_mul hk hk)
  · intro hck
    by_contra h
    exact h2 k (by omega) (by omega) hck

/-- `ceilSqrtRat a b` is characterised as the least `n` with `n*n*b ≥ a`. -/
lemma ceilSqrtRat_le_iff (a b k : Nat) (hb : 0 < b) :
    ceilSqrtRat a b ≤ k ↔ a ≤ k * k * b := by
  unfold ceilSqrtRat
  rw [ceilSqrtNat_le_iff, ceil_div_le_iff a b (k * k) hb]

lemma ceilSqrtRat_mul_self (k b : Nat) (hb : 0 < b) :
    ceilSqrtRat (k * b) b = ceilSqrtRat k 1 := by
  have h1 : k ≤ ceilSqrtRat k 1 * ceilSqrtRat k 1 := by
    have := (ceilSqrtRat_le_iff k 1 (ceilSqrtRat k 1) one_pos).1 le_rfl
    simpa using this
  have h2 : k * b ≤ ceilSqrtRat (k * b) b * ceilSqrtRat (k * b) b * b :=
    (ceilSqrtRat_le_iff _ _ _ hb).1 le_rfl
  apply le_antisymm
  · exact (ceilSqrtRat_le_iff _ _ _ hb).2 (Nat.mul_le_mul_right b h1)
  · apply (ceilSqrtRat_le_iff _ _ _ one_pos).2
    have hk : k ≤ ceilSqrtRat (k * b) b * ceilSqrtRat (k * b) b :=
      Nat.le_of_mul_le_mul_right h2 hb
    simpa using hk

lemma ceilSqrtRat_one_le (k : Nat) (hk : 0 < k) : 1 ≤ ceilSqrtRat k 1 := by
  by_contra h
  have h0 : ceilSqrtRat k 1 ≤ 0 := by omega
  have := (ceilSqrtRat_le_iff k 1 0 one_pos).1 h0
  omega

lemma getDownsampledStride_eq_none_iff (m : Nat) (d : Arr) (hm : 0 < m) :
    getDownsampledStride m d = none ↔ nbytes d ≤ m := by
  have hiff : ceilSqrtRat (nbytes d) m ≤ 1 ↔ nbytes d ≤ m := by
    have := ceilSqrtRat_le_iff (nbytes d) m 1 hm
    simpa using this
  unfold getDownsampledStride
  by_cases h : 1 < ceilSqrtRat (nbytes d) m
  · rw [if_pos h]
    constructor
    · intro hc; exact Option.noConfusion hc
    · intro hnb; exact absurd (hiff.2 hnb) (by omega)
  · rw [if_neg h]
    constructor
    · intro _; exact hiff.1 (by omega)
    · intro _; rfl

lemma getDownsampledStride_eq_some (m : Nat) (d : Arr) (n : Nat)
    (h : getDownsampledStride m d = some n) :
    n = ceilSqrtRat (nbytes d) m ∧ 1 < n := by
  unfold getDownsampledStride at h
  split at h
  next hgt =>
    obtain rfl := Option.some.inj h
    exact ⟨rfl, hgt⟩
  next => cases h

/-! ### Facts about `reshape` and the setters -/

lemma reshape_some (w h : Nat) (l : List ℚ) (hl : l.length = w * h) :
    reshape w h l = some ⟨(w, h), l⟩ := by
  unfold reshape
  rw [if_pos hl]

lemma reshape_eq_some {w h : Nat} {l : List ℚ} {i : Image}
    (hr : reshape w h l = some i) : i = ⟨(w, h), l⟩ ∧ l.length = w * h := by
  unfold reshape at hr
  split at hr
  · exact ⟨(Option.some.inj hr).symm, by assumption⟩
  · cases hr

lemma set_dtype_some_mem (s : RState) (d : NpDtype) (hd : d ∈ s.dtypes) :
    set_dtype s (some d) =
      .ok (if d = s.dtype then s else reset_buffer { s with dtype := d }) := by
  unfold set_dtype
  by_cases h : d = s.dtype
  · rw [if_pos (by rw [h]), if_pos h]
  · rw [if_neg (by simpa using h), if_neg h]
    simp only [Option.getD_some]
    rw [if_pos hd]

/-- What `set_data` does on a supported input dtype. -/
lemma set_data_spec (s : RState) (data : Arr) (ac c : Bool)
    (hd : data.dtype ∈ s.dtypes) :
    ∃ s', set_data s data ac c = .ok s' ∧
      s'.isGPU = s.isGPU ∧ s'.memMax = s.memMax ∧
      s'.dtype = data.dtype ∧
      s'.dataSlices = getDownsampledStride s.memMax data ∧
      s'.hostData = some (uploadOf s.memMax data) ∧
      s'.imgData = some (uploadOf s.memMax data) ∧
      s'.dataImg = some ⟨(uploadOf s.memMax data).shape.reverse, data.dtype⟩ := by
  unfold set_data
  rw [if_neg (by simp [hd]), if_pos hd, set_dtype_some_mem s data.dtype hd]
  by_cases hdt : data.dtype = s.dtype
  · rw [if_pos hdt]
    refine ⟨_, rfl, ?_⟩
    cases hst : getDownsampledStride s.memMax data <;>
      simp [update_data, set_shape, uploadOf, Except.map, hst, hdt]
  · rw [if_neg hdt]
    refine ⟨_, rfl, ?_⟩
    have hmem : (reset_buffer { s with dtype := data.dtype }).memMax = s.memMax := rfl
    cases hst : getDownsampledStride s.memMax data <;>
      simp [update_data, set_shape, uploadOf, reset_buffer, Except.map, hst]

/-- What `set_data` does on an unsupported input dtype with auto-convert
enabled: the array is converted to the stored dtype first. -/
lemma set_data_convert_spec (s : RState) (data : Arr) (c : Bool)
    (hd : data.dtype ∉ s.dtypes) :
    ∃ s', set_data s data true c = .ok s' ∧
      s'.isGPU = s.isGPU ∧ s'.memMax = s.memMax ∧
      s'.dtype = s.dtype ∧
      s'.dataSlices = getDownsampledStride s.memMax (astype data s.dtype) ∧
      s'.hostData = some (uploadOf s.memMax (astype data s.dtype)) ∧
      s'.imgData = some (uploadOf s.memMax (astype data s.dtype)) ∧
      s'.dataImg =
        some ⟨(uploadOf s.memMax (astype data s.dtype)).shape.reverse, s.dtype⟩ := by
  unfold set_data
  rw [if_neg (by simp), if_neg hd]
  refine ⟨_, rfl, ?_⟩
  cases hst : getDownsampledStride s.memMax (astype data s.dtype) <;>
    simp only [astype] at hst <;>
    simp [update_data, set_shape, uploadOf, astype, hst]

lemma ceilSqrtNat_one_le (k : Nat) (hk : 0 < k) : 1 ≤ ceilSqrtNat k := by
  by_contra h
  have h0 : ceilSqrtNat k ≤ 0 := by omega
  have := (ceilSqrtNat_le_iff k 0).1 h0
  omega

lemma ceilSqrtRat_one (k : Nat) : ceilSqrtRat k 1 = ceilSqrtNat k := by
  unfold ceilSqrtRat
  norm_num

lemma getDownsampledStride_none_le (m : Nat) (d : Arr)
    (h : getDownsampledStride m d = none) : ceilSqrtRat (nbytes d) m ≤ 1 := by
  unfold getDownsampledStride at h
  split at h
  next => cases h
  next hng => omega

lemma slicedShape_one (l : List Nat) : slicedShape 1 l = l := by
  have hd : ∀ d : Nat, (d + 1 - 1) / 1 = d := fun d => by omega
  unfold slicedShape
  simp [hd]

lemma uploadOf_dtype (m : Nat) (a : Arr) : (uploadOf m a).dtype = a.dtype := by
  unfold uploadOf
  cases h : getDownsampledStride m a <;> simp

lemma update_data_imgData (s : RState) (a : Arr) (c : Bool) :
    (update_data s a c).imgData.map Arr.dtype = some s.dtype ∧
    (update_data s a c).dtype = s.dtype ∧ (update_data s a c).isGPU = s.isGPU := by
  unfold update_data
  cases hsl : s.dataSlices with
  | none => by_cases h : a.dtype = s.dtype <;> simp [h, astype]
  | some n => by_cases h : a.dtype = s.dtype <;> simp [h, astype]

/-! ### Claims -/

/-- C1, counterexample to the claim as stated: for a `12×12×12` float64
input on a device with `maxAlloc = 432`, the claimed stride
`ceil(sqrt(nbytes/maxAlloc)) = ceil(sqrt(13824/432)) = 6` would upload
shape `[2,2,2]` per axis, but `set_data` first auto-converts the volume
to float32 (halving `nbytes` to 6912), computes stride 4 and uploads
shape `[3,3,3]`. -/
theorem c1_counterexample :
    ceilSqrtRat (nbytes ⟨[12, 12, 12], NpDtype.float64⟩) 432 = 6 ∧
    ((set_data (init true 432 none) ⟨[12, 12, 12], NpDtype.float64⟩ true
        false).toOption.map fun t => t.imgData.map Arr.shape) =
      some (some [3, 3, 3]) ∧
    some (some [3, 3, 3]) ≠ some (some (slicedShape 6 [12, 12, 12])) := by
  refine ⟨by decide, rfl, by decide⟩

/-- C1 (amended): for every input volume whose dtype is supported (for
other dtypes the stride is computed from the byte size after
auto-conversion), `set_data` downsamples with the effective stride
`max(ceil(sqrt(nbytes/maxAlloc)), 1)` and uploads `ceil(N_i/stride)`
values per axis; when `nbytes ≤ maxAlloc` the uploaded shape equals the
input shape; when `nbytes = k·maxAlloc` with `k ≥ 1` the effective
stride is `ceil(sqrt(k))`. -/
theorem c1_stride_and_shape (s : RState) (data : Arr) (c : Bool) (k : Nat)
    (hm : 0 < s.memMax) (hd : data.dtype ∈ s.dtypes) :
    ∃ s', set_data s data true c = .ok s' ∧
      s'.imgData.map Arr.shape =
        some (slicedShape (max (ceilSqrtRat (nbytes data) s.memMax) 1) data.shape) ∧
      (nbytes data ≤ s.memMax → s'.imgData.map Arr.shape = some data.shape) ∧
      (0 < k → nbytes data = k * s.memMax →
        max (ceilSqrtRat (nbytes data) s.memMax) 1 = ceilSqrtNat k) := by
  obtain ⟨s', hs, _, _, _, _, _, himg, _⟩ := set_data_spec s data true c hd
  refine ⟨s', hs, ?_, ?_, ?_⟩
  · rw [himg]
    cases hst : getDownsampledStride s.memMax data with
    | some n =>
      obtain ⟨rfl, hgt⟩ := getDownsampledStride_eq_some _ _ _ hst
      rw [Nat.max_eq_left (by omega)]
      simp [uploadOf, hst]
    | none =>
      have hle := getDownsampledStride_none_le s.memMax data hst
      rw [Nat.max_eq_right hle, slicedShape_one]
      simp [uploadOf, hst]
  · intro hnb
    have hst := (getDownsampledStride_eq_none_iff s.memMax data hm).2 hnb
    rw [himg]
    simp [uploadOf, hst]
  · intro hk hkb
    have h1 : ceilSqrtRat (nbytes data) s.memMax = ceilSqrtNat k := by
      rw [hkb, ceilSqrtRat_mul_self k s.memMax hm, ceilSqrtRat_one]
    rw [h1, Nat.max_eq_left (ceilSqrtNat_one_le k hk)]

/-- C1 witness: concrete instance of the amended claim, `12³` float32 on
`maxAlloc = 432` (so `nbytes = 16·432`): stride 4, uploaded shape
`[3,3,3]`. -/
theorem c1_stride_and_shape_witness :
    (set_data (init true 432 none) ⟨[12, 12, 12], NpDtype.float32⟩ true
        false).toOption.map (fun t => t.imgData.map Arr.shape) =
      some (some [3, 3, 3]) := by
  obtain ⟨s', hs, h1, h2, h3⟩ :=
    c1_stride_and_shape (init true 432 none) ⟨[12, 12, 12], NpDtype.float32⟩
      false 16 (by decide) (by decide)
  rw [hs]
  simp only [Except.toOption, Option.map_some']
  rw [h1]
  decide

/-- C5: the stack-scale matrix is the diagonal scale with
`scale_i = spacing_i·N_i / max_j(spacing_j·N_j)` (with `N` read from the
device image shape), and for unit spacing and a cubic volume it is the
identity matrix. -/
theorem c5_stack_scale (units : Fin 3 → ℚ) (nx ny nz : Nat) (img : Arr)
    (hs : img.shape = [nx, ny, nz]) :
    stack_scale_mat img units =
      some (mat4_scale
        (units 0 * nx / max (units 0 * nx) (max (units 1 * ny) (units 2 * nz)))
        (units 1 * ny / max (units 0 * nx) (max (units 1 * ny) (units 2 * nz)))
        (units 2 * nz / max (units 0 * nx) (max (units 1 * ny) (units 2 * nz)))) ∧
    ((∀ i, units i = 1) → nx = ny → ny = nz → 0 < nx →
      stack_scale_mat img units = some mat4_identity) := by
  have hA : stack_scale_mat img units =
      some (mat4_scale
        (units 0 * nx / max (units 0 * nx) (max (units 1 * ny) (units 2 * nz)))
        (units 1 * ny / max (units 0 * nx) (max (units 1 * ny) (units 2 * nz)))
        (units 2 * nz / max (units 0 * nx) (max (units 1 * ny) (units 2 * nz)))) := by
    unfold stack_scale_mat
    rw [hs]
  refine ⟨hA, ?_⟩
  intro hu h1 h2 h3
  subst h1
  subst h2
  rw [hA]
  have hnx : ((nx : ℚ)) ≠ 0 := by
    have : (0 : ℚ) < nx := by exact_mod_cast h3
    exact this.ne'
  rw [hu 0, hu 1, hu 2]
  simp only [one_mul, max_self]
  rw [div_self hnx]
  unfold mat4_scale mat4_identity
  rw [show ![(1 : ℚ), 1, 1, 1] = fun _ => 1 from by funext i; fin_cases i <;> rfl]
  rw [Matrix.diagonal_one]

/-- C5 witness: a concrete cubic volume with unit spacing gets the
identity stack-scale matrix. -/
theorem c5_stack_scale_witness :
    stack_scale_mat ⟨[2, 2, 2], NpDtype.float32⟩ (fun _ => 1) =
      some mat4_identity := by
  have h := c5_stack_scale (fun _ => 1) 2 2 2 ⟨[2, 2, 2], NpDtype.float32⟩ rfl
  exact h.2 (fun i => rfl) rfl rfl (by norm_num)

/-- C6: with `autoConvert` disabled, an unsupported input dtype makes
`set_data` raise `NotImplementedError` carrying the required dtype list
and the given dtype, with the renderer state exactly as before the call;
with a supported dtype or `autoConvert` enabled, `set_data` returns
normally. -/
theorem c6_set_data_dtype_guard (s : RState) (data : Arr) (c : Bool) :
    (data.dtype ∉ s.dtypes →
      set_data s data false c =
        .error (.notImplemented s.dtypes data.dtype, s)) ∧
    (∀ ac : Bool, data.dtype ∈ s.dtypes ∨ ac = true →
      ∃ s', set_data s data ac c = .ok s') := by
  constructor
  · intro hd
    unfold set_data
    rw [if_pos ⟨rfl, hd⟩]
  · intro ac hac
    by_cases hd : data.dtype ∈ s.dtypes
    · obtain ⟨s', hs, _⟩ := set_data_spec s data ac c hd
      exact ⟨s', hs⟩
    · have hac' : ac = true := by
        rcases hac with h | h
        · exact absurd h hd
        · exact h
      subst hac'
      obtain ⟨s', hs, _⟩ := set_data_convert_spec s data c hd
      exact ⟨s', hs⟩

/-- C6 witness: a uint16 volume on the CPU fallback (supported dtypes
`[float32]`) with `autoConvert=False` is rejected with the exact error
and an unchanged state. -/
theorem c6_set_data_dtype_guard_witness :
    set_data (init false 3 none) ⟨[2], NpDtype.uint16⟩ false false =
      .error (.notImplemented [NpDtype.float32] NpDtype.uint16,
        init false 3 none) := by
  exact (c6_set_data_dtype_guard (init false 3 none) ⟨[2], NpDtype.uint16⟩
    false).1 (by decide)

/-- C8, counterexample to the claim as stated: `12³` float32
(`nbytes = 6912`) on `maxAlloc = 432` gets stride 4, but stride 3
already brings the downsampled volume (`4³` float32 = 256 bytes) under
the 432-byte limit, so the chosen stride is not minimal. -/
theorem c8_counterexample :
    getDownsampledStride 432 ⟨[12, 12, 12], NpDtype.float32⟩ = some 4 ∧
    nbytes ⟨slicedShape 3 [12, 12, 12], NpDtype.float32⟩ ≤ 432 ∧
    (3 : Nat) < 4 := by
  decide

/-- C8 (amended): for a volume over the limit, the chosen stride is
`ceil(sqrt(nbytes/maxAlloc))`, i.e. the minimal integer `n` with
`n²·maxAlloc ≥ nbytes` — not in general the minimal stride that brings
the downsampled volume under the allocation limit. -/
theorem c8_stride_minimal_sqrt (m : Nat) (d : Arr) (hm : 0 < m)
    (hover : m < nbytes d) :
    getDownsampledStride m d = some (ceilSqrtRat (nbytes d) m) ∧
    nbytes d ≤ ceilSqrtRat (nbytes d) m * ceilSqrtRat (nbytes d) m * m ∧
    ∀ j : Nat, nbytes d ≤ j * j * m → ceilSqrtRat (nbytes d) m ≤ j := by
  have hgt : 1 < ceilSqrtRat (nbytes d) m := by
    by_contra h
    have h1 : nbytes d ≤ 1 * 1 * m := (ceilSqrtRat_le_iff _ _ 1 hm).1 (by omega)
    omega
  refine ⟨?_, (ceilSqrtRat_le_iff _ _ _ hm).1 le_rfl,
    fun j hj => (ceilSqrtRat_le_iff _ _ _ hm).2 hj⟩
  unfold getDownsampledStride
  rw [if_pos hgt]

/-- C8 witness: concrete instance of the amended claim at `12³` float32,
`maxAlloc = 432`. -/
theorem c8_stride_minimal_sqrt_witness :
    getDownsampledStride 432 ⟨[12, 12, 12], NpDtype.float32⟩ =
      some (ceilSqrtRat (nbytes ⟨[12, 12, 12], NpDtype.float32⟩) 432) ∧
    nbytes ⟨[12, 12, 12], NpDtype.float32⟩ ≤
      ceilSqrtRat (nbytes ⟨[12, 12, 12], NpDtype.float32⟩) 432 *
        ceilSqrtRat (nbytes ⟨[12, 12, 12], NpDtype.float32⟩) 432 * 432 := by
  have h := c8_stride_minimal_sqrt 432 ⟨[12, 12, 12], NpDtype.float32⟩
    (by decide) (by decide)
  exact ⟨h.1, h.2.1⟩

/-- C10, counterexample to the claim as stated: after `set_data` with a
float32 volume, a bare `set_dtype(np.uint16)` call returns normally and
stores `dtype = uint16`, but the array uploaded to the device image
still has dtype float32 — the second half of the invariant does not
survive `set_dtype`. -/
theorem c10_counterexample :
    set_data s0W arrW true false = .ok sRW ∧
    set_dtype sRW (some NpDtype.uint16) = .ok sCW ∧
    sCW.dtype = NpDtype.uint16 ∧
    sCW.imgData.map Arr.dtype = some NpDtype.float32 ∧
    NpDtype.float32 ≠ NpDtype.uint16 := by
  exact ⟨rfl, rfl, rfl, rfl, by decide⟩

/-- C10 (amended): after construction and every normal return of
`set_dtype` or `set_data` the stored dtype is in the supported list; and
after every normal return of `set_data` (and every `update_data`) the
array uploaded to the device image has exactly the stored dtype.  A bare
`set_dtype` call changes the stored dtype without re-uploading, so only
the first half survives it. -/
theorem c10_dtype_invariant :
    (∀ (g : Bool) (m : Nat) (sz : Option (Nat × Nat)),
      (init g m sz).dtype ∈ (init g m sz).dtypes) ∧
    (∀ (s : RState) (o : Option NpDtype) (s' : RState),
      s.dtype ∈ s.dtypes → set_dtype s o = .ok s' → s'.dtype ∈ s'.dtypes) ∧
    (∀ (s : RState) (data : Arr) (ac c : Bool) (s' : RState),
      s.dtype ∈ s.dtypes → set_data s data ac c = .ok s' →
      s'.dtype ∈ s'.dtypes ∧ s'.imgData.map Arr.dtype = some s'.dtype) ∧
    (∀ (s : RState) (data : Arr) (c : Bool),
      (update_data s data c).imgData.map Arr.dtype =
        some (update_data s data c).dtype) := by
  refine ⟨?_, ?_, ?_, ?_⟩
  · intro g m sz
    cases g
    · show NpDtype.float32 ∈ [NpDtype.float32]
      simp
    · show NpDtype.float32 ∈ [NpDtype.float32, NpDtype.uint16]
      simp
  · intro s o s' hmem hok
    unfold set_dtype at hok
    split at hok
    next =>
      obtain rfl := Except.ok.inj hok
      exact hmem
    next =>
      split at hok
      next hin =>
        obtain rfl := Except.ok.inj hok
        unfold RState.dtypes at hin ⊢
        simpa [reset_buffer] using hin
      next => cases hok
  · intro s data ac c s' hmem hok
    by_cases hd : data.dtype ∈ s.dtypes
    · obtain ⟨t, ht, hgpu, _, hdt, _, _, himg, _⟩ := set_data_spec s data ac c hd
      rw [ht] at hok
      obtain rfl := Except.ok.inj hok
      have hdts : t.dtypes = s.dtypes := by
        unfold RState.dtypes
        rw [hgpu]
      constructor
      · rw [hdt, hdts]
        exact hd
      · rw [himg, hdt]
        simp [uploadOf_dtype]
    · cases ac with
      | false =>
        unfold set_data at hok
        rw [if_pos ⟨rfl, hd⟩] at hok
        cases hok
      | true =>
        obtain ⟨t, ht, hgpu, _, hdt, _, _, himg, _⟩ :=
          set_data_convert_spec s data c hd
        rw [ht] at hok
        obtain rfl := Except.ok.inj hok
        have hdts : t.dtypes = s.dtypes := by
          unfold RState.dtypes
          rw [hgpu]
        constructor
        · rw [hdt, hdts]
          exact hmem
        · rw [himg, hdt]
          simp [uploadOf_dtype, astype]
  · intro s data c
    obtain ⟨h1, h2, _⟩ := update_data_imgData s data c
    rw [h1, h2]

/-- C10 witness: the invariant of the amended claim holds concretely
after `set_data` of a float32 cube on a GPU renderer. -/
theorem c10_dtype_invariant_witness :
    sRW.dtype ∈ sRW.dtypes ∧ sRW.imgData.map Arr.dtype = some sRW.dtype :=
  c10_dtype_invariant.2.2.1 s0W arrW true false sRW (by decide) rfl

/-- C2, counterexample to the claim as stated: after `resize((3,2))` the
code returns `reshape(self.width, self.height)`, an array of shape
`(w, h) = (3, 2)`, not `(h, w) = (2, 3)`. -/
theorem c2_counterexample :
    ((render id k0 (resize (init false 7 none) (3, 2))
        none none none none none none none).toOption.map
      fun r => r.image.shape) = some (3, 2) ∧
    ((3, 2) : Nat × Nat) ≠ (2, 3) := by
  exact ⟨rfl, by decide⟩

/-- C2 (amended): `resize((w,h))` reallocates the output buffer (to
`h*w` float slots), and a subsequent `render()` that returns does so
with an array of shape `(w, h)` — width first, not `(h, w)` — while
preserving the stored size and buffer length regardless of the prior
size. -/
theorem c2_resize_render_shape (s : RState) (w h : Nat) :
    (resize s (w, h)).buf.length = h * w ∧
    ∀ (inv4 : Mat4 → Mat4) (kernel : KernelArgs → Nat → ℚ) (r : RenderOut),
      render inv4 kernel (resize s (w, h)) none none none none none none none =
        .ok r →
      r.image.shape = (w, h) ∧ r.state.width = w ∧ r.state.height = h ∧
        r.state.buf.length = w * h := by
  constructor
  · simp [resize, reset_buffer]
  · intro inv4 kernel r hr
    unfold render at hr
    dsimp only at hr
    split at hr
    next hd =>
      split at hr
      next img heq =>
        obtain rfl := Except.ok.inj hr
        obtain ⟨rfl, hlen⟩ := reshape_eq_some heq
        exact ⟨rfl, rfl, rfl, hlen⟩
      next => cases hr
    next dimg hd =>
      split at hr
      next => cases hr
      next mS hm =>
        split at hr
        next img heq =>
          obtain rfl := Except.ok.inj hr
          obtain ⟨rfl, hlen⟩ := reshape_eq_some heq
          exact ⟨rfl, rfl, rfl, hlen⟩
        next => cases hr

/-- C2 witness: concrete instance of the amended claim after
`resize((3,2))` on a renderer previously sized `(200,200)`. -/
theorem c2_resize_render_shape_witness :
    r2W.image.shape = (3, 2) :=
  ((c2_resize_render_shape (init true 5 none) 3 2).2 id k0 r2W rfl).1

/-- C3, counterexample to the claim as stated: a fresh renderer of size
`(4, 2)` (width 4, height 2) returns a `(4, 2)`-shaped array from
`render()`, not the claimed `(height, width) = (2, 4)`. -/
theorem c3_counterexample :
    ((render id k0 (init true 7 (some (4, 2)))
        none none none none none none none).toOption.map
      fun r => r.image.shape) = some (4, 2) ∧
    ((4, 2) : Nat × Nat) ≠ (2, 4) := by
  exact ⟨rfl, by decide⟩

/-- C3 (amended): on a freshly constructed renderer with no prior
`set_data`, `render()` with no arguments does not raise, skips the
kernel dispatch, returns the current buffer reshaped to
`(width, height)` — width first, not `(height, width)` — and leaves the
whole stored state (in particular all camera state) unchanged. -/
theorem c3_render_without_data (g : Bool) (m : Nat) (sz : Option (Nat × Nat))
    (inv4 : Mat4 → Mat4) (kernel : KernelArgs → Nat → ℚ) :
    render inv4 kernel (init g m sz) none none none none none none none =
      .ok ⟨init g m sz,
        ⟨((init g m sz).width, (init g m sz).height), (init g m sz).buf⟩,
        false⟩ := by
  have hd : (init g m sz).dataImg = none := rfl
  have hb : (init g m sz).buf.length = (init g m sz).width * (init g m sz).height := by
    have hbuf : (init g m sz).buf =
        List.replicate ((init g m sz).height * (init g m sz).width) 0 := rfl
    rw [hbuf, List.length_replicate, Nat.mul_comm]
  unfold render
  dsimp only
  rw [hd]
  dsimp only
  rw [reshape_some _ _ _ hb]

/-- C4: evaluation of the code at the failing input.  With volume data
established, passing a 4×4 `modelView` override makes `render` raise:
the guard `if not modelView and ...` takes the truth value of a
16-element numpy array, a `ValueError` — after the override has already
been stored by the setter. -/
theorem c4_modelview_override_raises :
    render id k0 sRW none none none none (some mat4_identity) none none =
      .error (.truthValueAmbiguous, set_modelView sRW mat4_identity) := rfl

/-- C7, counterexample to the claim as stated: on a fresh renderer with
no data, `render(gamma=2)` dispatches nothing yet mutates the stored
display state (`gamma` goes from its prior value 1 to 2), so a
precondition-failing render call is not atomic in effect. -/
theorem c7_counterexample :
    ((render id k0 s7W none none none (some 2) none none none).toOption.map
      fun r => (r.dispatched, r.state.gamma)) = some (false, 2) ∧
    s7W.gamma = 1 ∧ (2 : ℚ) ≠ 1 := by
  exact ⟨rfl, rfl, by decide⟩

/-- C7 (amended): a `render` call *without per-call overrides* is atomic
in effect: either it dispatches the kernel, or it changes no state at
all and returns the prior buffer contents.  (With overrides supplied,
the setters run before the precondition check, so a failing call can
still mutate stored display/camera state — see the counterexample.) -/
theorem c7_render_no_override_atomic (inv4 : Mat4 → Mat4)
    (kernel : KernelArgs → Nat → ℚ) (s : RState) (r : RenderOut)
    (h : render inv4 kernel s none none none none none none none = .ok r) :
    r.dispatched = true ∨ (r.state = s ∧ r.image.data = s.buf) := by
  unfold render at h
  dsimp only at h
  split at h
  next hd =>
    split at h
    next img heq =>
      obtain rfl := Except.ok.inj h
      obtain ⟨rfl, _⟩ := reshape_eq_some heq
      exact Or.inr ⟨rfl, rfl⟩
    next => cases h
  next dimg hd =>
    split at h
    next => cases h
    next mS hm =>
      split at h
      next img heq =>
        obtain rfl := Except.ok.inj h
        exact Or.inl rfl
      next => cases h

/-- C7 witness: concrete instance of the amended claim (fresh renderer,
no data: the call returns the prior state and buffer unchanged). -/
theorem c7_render_no_override_atomic_witness :
    r7nW.dispatched = true ∨ (r7nW.state = s7W ∧ r7nW.image.data = s7W.buf) :=
  c7_render_no_override_atomic id k0 s7W r7nW rfl

/-- C9: rendering twice from the same stored state with no setter calls
in between returns identical output arrays — `invM`, `invP` and all
kernel arguments are functions of the stored state only, and the second
call rebuilds them identically. -/
theorem c9_render_deterministic (inv4 : Mat4 → Mat4)
    (kernel : KernelArgs → Nat → ℚ) (s : RState) (r1 r2 : RenderOut)
    (h1 : render inv4 kernel s none none none none none none none = .ok r1)
    (h2 : render inv4 kernel r1.state none none none none none none none = .ok r2) :
    r2.image = r1.image := by
  unfold render at h1 h2
  dsimp only at h1
  split at h1
  next hd =>
    split at h1
    next img heq =>
      obtain rfl := Except.ok.inj h1
      dsimp only at h2
      rw [hd] at h2
      dsimp only at h2
      rw [heq] at h2
      obtain rfl := Except.ok.inj h2
      rfl
    next => cases h1
  next dimg hd =>
    split at h1
    next => cases h1
    next mS hm =>
      split at h1
      next img heq =>
        obtain rfl := Except.ok.inj h1
        dsimp only at h2
        rw [hd] at h2
        dsimp only at h2
        rw [hm] at h2
        dsimp only at h2
        rw [heq] at h2
        obtain rfl := Except.ok.inj h2
        rfl
      next => cases h1

/-- C9 witness: two consecutive no-override renders of a concrete
renderer with data produce the same image. -/
theorem c9_render_deterministic_witness : rD2.image = rD1.image :=
  c9_render_deterministic id k0 sRW rD1 rD2 rfl rfl

end VolumeRender

